import Mathlib

/-!
Verification development for the pISO volume mount-state machine
(src/pISO/src/vdrive.rs).

The Rust code is embedded shallowly: the mutable `VirtualDrive` becomes a
record threaded explicitly through each operation, kernel-facing effects
(command execution, directory listing/creation/removal, USB gadget
export/unexport, nested-image construction and teardown) are mediated by an
`Env` oracle of fallible functions, and every operation additionally returns
the list of effect `Event`s it performed, in order.  Errors are `Except
String`; the Rust `?` early return is modelled by returning the unchanged
drive together with the error.
-/

namespace VDrive

deriving instance DecidableEq for Except

/-- Effect events, one per kernel-facing operation the code performs. -/
inductive Event where
  | run (cmd : String) (args : List String)
  | readDir (path : String)
  | createDirAll (path : String)
  | removeDirAll (path : String)
  | isoNew (path : String)
  | isoUnmountEv (path : String)
  | exportFile (path : String) (cdrom ro removable : Bool)
  | unexportFile (id : Nat)
  | spawnTrim (path : String)
  deriving DecidableEq, Repr

/-- Translation of lvm::LogicalVolume as consumed by vdrive.rs: a name, a
byte size and a backing path. -/
structure LogicalVolume where
  name : String
  size : Nat
  path : String
  deriving DecidableEq, Repr

/-- Translation of iso::Iso as consumed by vdrive.rs: an opaque owned handle
identified here by the path it was constructed from. -/
structure Iso where
  path : String
  deriving DecidableEq, Repr

/-- Translation of MountInfo (vdrive.rs lines 23-27). -/
structure MountInfo where
  loopback_path : String
  part_mount_paths : List String
  isos : List Iso
  deriving DecidableEq, Repr

/-- Translation of MountState (vdrive.rs lines 29-33). -/
inductive MountState where
  | Unmounted
  | Internal (info : MountInfo)
  | External (id : Nat)
  deriving DecidableEq, Repr

/-- Translation of PersistVDriveState (vdrive.rs lines 35-40). -/
structure PersistVDriveState where
  external_mount : Bool
  readonly : Bool
  removable : Bool
  deriving DecidableEq, Repr

/-- Translation of Default for PersistVDriveState (vdrive.rs lines 42-50). -/
def PersistVDriveState.default : PersistVDriveState :=
  { external_mount := false, readonly := false, removable := true }

/-- Model of the system section of config::Config as accessed by vdrive.rs
line 350-354: an optional system block with an optional auto_fstrim flag. -/
structure SystemCfg where
  auto_fstrim : Option Bool
  deriving DecidableEq, Repr

/-- Model of config::Config as consumed by vdrive.rs: the optional system
block, plus the drive-rename table consulted by the (external) display-name
translation. -/
structure Config where
  system : Option SystemCfg
  renames : List (String × String)
  deriving DecidableEq, Repr

/-- Translation of VirtualDrive (vdrive.rs lines 52-59); the display-manager
handle is dropped (display effects are outside the state machine) and the
shared usb handle lives in the environment oracle. -/
structure VirtualDrive where
  state : MountState
  volume : LogicalVolume
  window : Nat
  persist : PersistVDriveState
  config : Config
  deriving DecidableEq, Repr

/-- Directory entry of the nested-image folder: the UTF-8 decoded file name
(none models a non-UTF8 name, for which Rust's OsString::into_string fails)
and the entry's full path. -/
structure IsoEnt where
  utf8Name : Option String
  path : String
  deriving DecidableEq, Repr

/-- Environment oracle: the outcome of every kernel-facing operation the
code may perform.  Each field models one collaborator contract. -/
structure Env where
  /-- Outcome of utils::run_check_output for a command and argument list
  (losetup, umount, the mount driver list, fstrim). -/
  run : String → List String → Except String String
  /-- Entries of fs::read_dir("/dev"): each entry may itself fail to be
  read; names are the lossy-decoded file names. -/
  readDirDev : Except String (List (Except String String))
  /-- Outcome of fs::create_dir_all. -/
  createDirAll : String → Except String Unit
  /-- Outcome of Path::exists. -/
  pathExists : String → Bool
  /-- Entries of fs::read_dir on a nested-image folder. -/
  readDirIso : String → Except String (List (Except String IsoEnt))
  /-- Outcome of iso::Iso::new on an image path. -/
  isoNew : String → Except String Iso
  /-- Outcome of iso::Iso::unmount on a handle. -/
  isoUnmount : Iso → Except String Unit
  /-- Outcome of fs::remove_dir_all. -/
  removeDirAll : String → Except String Unit
  /-- Outcome of acquiring the shared usb gadget lock (self.usb.lock()). -/
  usbLock : Except String Unit
  /-- Modelled from the spec: the Gadget Export Endpoint (usb.rs is not
  among the sources).  Contract: export(path, flag, read_only, removable)
  returns an opaque identifier or fails; the second flag selects CD-ROM
  emulation versus direct file attach, so the literal false passed by
  mount_external requests direct-file-attach semantics. -/
  exportFile : String → Bool → Bool → Bool → Except String Nat
  /-- Modelled from the spec: unexport(ExportId) releases the export. -/
  unexportFile : Nat → Except String Unit

/-- Computation returning events performed (in order) and an Except result. -/
def M (α : Type) : Type := List Event × Except String α

instance : Monad M where
  pure a := ([], Except.ok a)
  bind x f :=
    match x with
    | (evs, Except.error e) => (evs, Except.error e)
    | (evs, Except.ok a) =>
      match f a with
      | (evs2, r) => (evs ++ evs2, r)

/-- Lift a pure fallible result (no event performed). -/
def M.lift (r : Except String α) : M α := ([], r)

/-- Perform one effect: record the event and return the oracle's outcome. -/
def M.call (ev : Event) (r : Except String α) : M α := ([ev], r)

/-- Raise an error (no event performed). -/
def M.err (e : String) : M α := ([], Except.error e)

/-- Record a list of already-performed events. -/
def M.emitAll (evs : List Event) : M Unit := (evs, Except.ok ())

/-- Model of Rust str::trim_right on the losetup output: drop trailing
whitespace characters. -/
def trimRight (s : String) : String :=
  String.mk ((s.data.reverse.dropWhile Char.isWhitespace).reverse)

/-- Decidable character-level prefix test (Rust str::starts_with). -/
def strStartsWith (s pre : String) : Bool :=
  pre.data.isPrefixOf s.data

/-- Model of Rust str::split over a one-character pattern: split the
character list at every occurrence of the separator. -/
def splitOnChar (c : Char) : List Char → List (List Char)
  | [] => [[]]
  | x :: xs =>
    match splitOnChar c xs with
    | [] => [[x]]
    | y :: ys => if x == c then [] :: y :: ys else (x :: y) :: ys

/-- Model of Path::file_name: the last non-empty, non-dot component of the
path, none when there is none or it is a parent reference. -/
def pathFileName (s : String) : Option String :=
  match (((splitOnChar '/' s.data).map String.mk).filter
      (fun c => !(c == "" || c == "."))).getLast? with
  | none => none
  | some c => if c == ".." then none else some c

/-- Translation of the partition-number derivation (vdrive.rs lines
187-189): dev_name.split("p").last() with ok_or on the (never occurring)
empty case. -/
def partNumOf (devName : String) : Except String String :=
  match (splitOnChar 'p' devName.data).getLast? with
  | none => Except.error "Failed to determine partition number"
  | some seg => Except.ok (String.mk seg)

/-- Specification-side reading of the same step, written from the spec's
words for comparison: the partition number is the trailing numeric suffix
of the node's name, and an empty suffix is a parse failure. -/
def specTrailingNumericSuffix (devName : String) : Option String :=
  match (devName.data.reverse.takeWhile Char.isDigit).reverse with
  | [] => none
  | ds => some (String.mk ds)

/-- Modelled from the spec: utils::translate_drive_name is not among the
sources; per the spec it is a pure function mapping (volume name,
configuration) to a user-facing label (the configured new name for the
drive).  Modelled as a rename-table lookup defaulting to the name itself. -/
def translate_drive_name (name : String) (c : Config) : String :=
  match c.renames.lookup name with
  | some n => n
  | none => name

/-- Mount root constant VDRIVE_MOUNT_ROOT (vdrive.rs line 20). -/
def VDRIVE_MOUNT_ROOT : String := "/mnt"

/-- Nested-image folder constant ISO_FOLDER (vdrive.rs line 21). -/
def ISO_FOLDER : String := "ISOS"

/-- Translation of VirtualDrive::name (vdrive.rs lines 79-81). -/
def VirtualDrive.name (d : VirtualDrive) : String := d.volume.name

/-- Translation of VirtualDrive::size (vdrive.rs lines 83-85). -/
def VirtualDrive.size (d : VirtualDrive) : Nat := d.volume.size

/-- Translation of the mounter loop body of VirtualDrive::mount_partition
(vdrive.rs lines 141-147): try each mount driver in order, first success
wins. -/
def tryMounters (env : Env) (device target : String) : List String → M Unit
  | [] =>
    M.err ("Failed to mount: " ++ device ++ " to " ++ target)
  | m :: rest =>
    match env.run m [device, target] with
    | Except.ok _ => ([Event.run m [device, target]], Except.ok ())
    | Except.error _ =>
      match tryMounters env device target rest with
      | (evs, r) => (Event.run m [device, target] :: evs, r)

/-- Translation of VirtualDrive::mount_partition (vdrive.rs lines 136-153)
with its fixed ordered driver list. -/
def mount_partition (env : Env) (device target : String) : M Unit :=
  tryMounters env device target ["mount", "mount.exfat", "mount.ntfs-3g"]

/-- Translation of the nested-image discovery loop (vdrive.rs lines
202-216): each entry may fail to read, a non-UTF8 name is a hard error,
hidden (dot-prefixed) names are skipped, and Iso::new failures propagate. -/
def scanIsoList (env : Env) : List (Except String IsoEnt) → M (List Iso)
  | [] => pure []
  | e :: rest => do
    let ent ← M.lift e
    match ent.utf8Name with
    | none => M.err "Invalid file name"
    | some nm =>
      if strStartsWith nm "." then
        scanIsoList env rest
      else do
        let iso ← M.call (Event.isoNew ent.path) (env.isoNew ent.path)
        let isos ← scanIsoList env rest
        pure (iso :: isos)

/-- Translation of the /dev enumeration loop of VirtualDrive::mount_internal
(vdrive.rs lines 174-222), folding over the directory entries and
accumulating mounted partition paths and discovered nested-image handles in
order. -/
def scanDevList (env : Env) (cfg : Config) (volName loopbackName : String) :
    List (Except String String) → List String → List Iso →
    M (List String × List Iso)
  | [], parts, isos => pure (parts, isos)
  | e :: rest, parts, isos => do
    let devName ← M.lift e
    if strStartsWith devName loopbackName then
      if devName == loopbackName then
        scanDevList env cfg volName loopbackName rest parts isos
      else do
        let partNum ← M.lift (partNumOf devName)
        let partName := translate_drive_name volName cfg
        let mountFolderName := partName ++ " (partition " ++ partNum ++ ")"
        let mountPoint := VDRIVE_MOUNT_ROOT ++ "/" ++ mountFolderName
        let _ ← M.call (Event.createDirAll mountPoint) (env.createDirAll mountPoint)
        match mount_partition env ("/dev/" ++ devName) mountPoint with
        | (mevs, Except.ok _) => do
          M.emitAll mevs
          let isopath := mountPoint ++ "/" ++ ISO_FOLDER
          if env.pathExists isopath then do
            let entries ← M.call (Event.readDir isopath) (env.readDirIso isopath)
            let newIsos ← scanIsoList env entries
            scanDevList env cfg volName loopbackName rest (parts ++ [mountPoint]) (isos ++ newIsos)
          else
            scanDevList env cfg volName loopbackName rest (parts ++ [mountPoint]) isos
        | (mevs, Except.error _) => do
          M.emitAll mevs
          scanDevList env cfg volName loopbackName rest parts isos
    else
      scanDevList env cfg volName loopbackName rest parts isos

/-- Translation of the Unmounted branch of VirtualDrive::mount_internal
(vdrive.rs lines 160-232): locate a free loopback device, attach with
partition scanning, enumerate /dev, and build the MountInfo. -/
def mountInternalCore (env : Env) (d : VirtualDrive) : M MountInfo := do
  let out ← M.call (Event.run "losetup" ["-f"]) (env.run "losetup" ["-f"])
  let loopbackPath := trimRight out
  let loopbackName ← M.lift
    (match pathFileName loopbackPath with
     | none => Except.error "loopback path has no file name"
     | some n => Except.ok n)
  let _ ← M.call (Event.run "losetup" ["-fP", d.volume.path])
    (env.run "losetup" ["-fP", d.volume.path])
  let entries ← M.call (Event.readDir "/dev") env.readDirDev
  let (parts, isos) ← scanDevList env d.config d.volume.name loopbackName entries [] []
  pure { loopback_path := loopbackPath, part_mount_paths := parts, isos := isos }

/-- Translation of VirtualDrive::mount_internal (vdrive.rs lines 155-238):
state dispatch around the core, returning the unchanged drive on error and
the existing MountInfo without side effects when already Internal. -/
def mount_internal (env : Env) (d : VirtualDrive) :
    List Event × VirtualDrive × Except String MountInfo :=
  match d.state with
  | MountState.Unmounted =>
    match mountInternalCore env d with
    | (evs, Except.ok info) => (evs, { d with state := MountState.Internal info }, Except.ok info)
    | (evs, Except.error e) => (evs, d, Except.error e)
  | MountState.Internal info => ([], d, Except.ok info)
  | MountState.External _ =>
    ([], d, Except.error "Attempt to mount_internal while mounted external")

/-- Translation of VirtualDrive::mount_external (vdrive.rs lines 87-108):
export the backing file via the gadget endpoint with the persisted flags,
chaining endpoint failures; lock failure also propagates. -/
def mount_external (env : Env) (d : VirtualDrive) :
    List Event × VirtualDrive × Except String Unit :=
  match d.state with
  | MountState.External _ => ([], d, Except.ok ())
  | MountState.Unmounted =>
    match env.usbLock with
    | Except.error e => ([], d, Except.error e)
    | Except.ok _ =>
      match env.exportFile d.volume.path false d.persist.readonly d.persist.removable with
      | Except.error e =>
        ([Event.exportFile d.volume.path false d.persist.readonly d.persist.removable],
         d, Except.error ("failed to mount drive external: " ++ e))
      | Except.ok id =>
        ([Event.exportFile d.volume.path false d.persist.readonly d.persist.removable],
         { d with state := MountState.External id,
                  persist := { d.persist with external_mount := true } },
         Except.ok ())
  | MountState.Internal _ =>
    ([], d, Except.error "Attempt to mount_external while mounted internal")

/-- Translation of VirtualDrive::unmount_external (vdrive.rs lines 110-126):
release the export via the endpoint; on success (or when already Unmounted)
clear the state and the persisted external flag. -/
def unmount_external (env : Env) (d : VirtualDrive) :
    List Event × VirtualDrive × Except String Unit :=
  match d.state with
  | MountState.Unmounted =>
    ([], { d with state := MountState.Unmounted,
                  persist := { d.persist with external_mount := false } },
     Except.ok ())
  | MountState.Internal _ =>
    ([], d, Except.error "Attempt to unmount_external while mounted internal")
  | MountState.External id =>
    match env.usbLock with
    | Except.error e => ([], d, Except.error e)
    | Except.ok _ =>
      match env.unexportFile id with
      | Except.error e =>
        ([Event.unexportFile id], d, Except.error ("failed to unmount external: " ++ e))
      | Except.ok _ =>
        ([Event.unexportFile id],
         { d with state := MountState.Unmounted,
                  persist := { d.persist with external_mount := false } },
         Except.ok ())

/-- Translation of the nested-image teardown loop of
VirtualDrive::unmount_internal (vdrive.rs lines 244-246): each handle's
unmount runs in order, the first failure returning early. -/
def unmountIsos (env : Env) : List Iso → M Unit
  | [] => ([], Except.ok ())
  | i :: rest =>
    match env.isoUnmount i with
    | Except.error e => ([Event.isoUnmountEv i.path], Except.error e)
    | Except.ok _ =>
      match unmountIsos env rest with
      | (evs, r) => (Event.isoUnmountEv i.path :: evs, r)

/-- Translation of the partition teardown loop of
VirtualDrive::unmount_internal (vdrive.rs lines 247-250): unmount each
mount point, then remove its directory, first failure returning early. -/
def unmountParts (env : Env) : List String → M Unit
  | [] => ([], Except.ok ())
  | p :: rest =>
    match env.run "umount" [p] with
    | Except.error e => ([Event.run "umount" [p]], Except.error e)
    | Except.ok _ =>
      match env.removeDirAll p with
      | Except.error e => ([Event.run "umount" [p], Event.removeDirAll p], Except.error e)
      | Except.ok _ =>
        match unmountParts env rest with
        | (evs, r) => (Event.run "umount" [p] :: Event.removeDirAll p :: evs, r)

/-- Translation of the Internal branch of VirtualDrive::unmount_internal
(vdrive.rs lines 243-251): nested images, then partitions, then loopback
detach. -/
def unmountInternalCore (env : Env) (info : MountInfo) : M Unit :=
  match unmountIsos env info.isos with
  | (evs, Except.error e) => (evs, Except.error e)
  | (evs, Except.ok _) =>
    match unmountParts env info.part_mount_paths with
    | (evs2, Except.error e) => (evs ++ evs2, Except.error e)
    | (evs2, Except.ok _) =>
      match env.run "losetup" ["-d", info.loopback_path] with
      | Except.error e =>
        (evs ++ evs2 ++ [Event.run "losetup" ["-d", info.loopback_path]], Except.error e)
      | Except.ok _ =>
        (evs ++ evs2 ++ [Event.run "losetup" ["-d", info.loopback_path]], Except.ok ())

/-- Translation of VirtualDrive::unmount_internal (vdrive.rs lines 240-259):
on any step's failure the error propagates and the drive is unchanged; on
full success the state becomes Unmounted. -/
def unmount_internal (env : Env) (d : VirtualDrive) :
    List Event × VirtualDrive × Except String Unit :=
  match d.state with
  | MountState.Unmounted => ([], { d with state := MountState.Unmounted }, Except.ok ())
  | MountState.External _ =>
    ([], d, Except.error "Attempt to unmount_internal while mounted external")
  | MountState.Internal info =>
    match unmountInternalCore env info with
    | (evs, Except.ok _) => (evs, { d with state := MountState.Unmounted }, Except.ok ())
    | (evs, Except.error e) => (evs, d, Except.error e)

/-- Translation of VirtualDrive::unmount (vdrive.rs lines 128-134). -/
def unmount (env : Env) (d : VirtualDrive) :
    List Event × VirtualDrive × Except String Unit :=
  match d.state with
  | MountState.Unmounted => ([], d, Except.ok ())
  | MountState.Internal _ => unmount_internal env d
  | MountState.External _ => unmount_external env d

/-- Translation of VirtualDrive::toggle_mount (vdrive.rs lines 261-275). -/
def toggle_mount (env : Env) (d : VirtualDrive) :
    List Event × VirtualDrive × Except String Unit :=
  match d.state with
  | MountState.Unmounted => mount_external env d
  | MountState.Internal _ =>
    match unmount_internal env d with
    | (evs, d2, Except.error e) => (evs, d2, Except.error e)
    | (evs, d2, Except.ok _) =>
      match mount_external env d2 with
      | (evs2, d3, r) => (evs ++ evs2, d3, r)
  | MountState.External _ =>
    match unmount_external env d with
    | (evs, d2, Except.error e) => (evs, d2, Except.error e)
    | (evs, d2, Except.ok _) =>
      match mount_internal env d2 with
      | (evs2, d3, r) => (evs ++ evs2, d3, r.map (fun _ => ()))

/-- Translation of the auto_fstrim configuration read (vdrive.rs lines
350-354): config.system.map(auto_fstrim.unwrap_or(false)).unwrap_or(false). -/
def autoFstrim (c : Config) : Bool :=
  (c.system.map (fun s => s.auto_fstrim.getD false)).getD false

/-- Trim tasks spawned after an internal mount (vdrive.rs lines 356-365):
one detached background execution per mounted partition path, its outcome
never consulted. -/
def trimEvents (st : MountState) : List Event :=
  match st with
  | MountState.Internal mount => mount.part_mount_paths.map Event.spawnTrim
  | _ => []

/-- Translation of the state::Stateful on_load of VirtualDrive (vdrive.rs
lines 345-369): restore the persisted disposition's mode; after an internal
mount, spawn a fire-and-forget trim per mounted partition when the
auto_fstrim configuration flag is enabled. -/
def on_load (env : Env) (d : VirtualDrive) :
    List Event × VirtualDrive × Except String Unit :=
  if d.persist.external_mount then
    mount_external env d
  else
    match mount_internal env d with
    | (evs, d2, Except.error e) => (evs, d2, Except.error e)
    | (evs, d2, Except.ok _) =>
      if autoFstrim d.config then
        (evs ++ trimEvents d2.state, d2, Except.ok ())
      else
        (evs, d2, Except.ok ())

/-- Model of the one-decimal gibibyte figure of the render label (vdrive.rs
lines 281, 286): size/2^30 rounded to one decimal place with ties to even,
in tenths; this matches the Rust f64 division plus the formatter's rounding
whenever the double intermediate is exact, as it is for the sizes the
claims evaluate. -/
def sizeTenthsGB (size : Nat) : Nat :=
  let num := size * 10
  let q := num / 2 ^ 30
  let r := num % 2 ^ 30
  if 2 ^ 30 < 2 * r then q + 1
  else if 2 * r < 2 ^ 30 then q
  else if q % 2 == 0 then q else q + 1

/-- Rendering of the one-decimal figure as a string: integer part, dot,
single tenths digit. -/
def formatOneDecimal (tenths : Nat) : String :=
  toString (tenths / 10) ++ "." ++ toString (tenths % 10)

/-- Abstraction of the render output (vdrive.rs lines 279-298): the text of
the label, whether the external marker glyph is blitted, and whether the
focus arrow is blitted.  Bitmap geometry is outside the state machine. -/
structure RenderOut where
  label : String
  externalMarker : Bool
  focusArrow : Bool
  deriving DecidableEq, Repr

/-- Translation of render::Render for VirtualDrive (vdrive.rs lines
278-298): the label is the translated name with the one-decimal gibibyte
size, the square marker appears exactly in the External state, the arrow
exactly under focus. -/
def render (d : VirtualDrive) (focus : Bool) : RenderOut :=
  { label := translate_drive_name (VirtualDrive.name d) d.config ++ " (" ++
      formatOneDecimal (sizeTenthsGB (VirtualDrive.size d)) ++ "GB)"
    externalMarker :=
      match d.state with
      | MountState.External _ => true
      | _ => false
    focusArrow := focus }

/-- Translation of action::Action as matched by vdrive.rs. -/
inductive Action where
  | ToggleVDriveMount (id : Nat)
  | ToggleDriveReadOnly (name : String)
  | ToggleDriveNonRemovable (name : String)
  | OtherAction
  deriving DecidableEq, Repr

/-- Translation of controller::Event as matched by vdrive.rs. -/
inductive CEvent where
  | Select
  | OtherEvent
  deriving DecidableEq, Repr

/-- Translation of input::Input::on_event for VirtualDrive (vdrive.rs lines
302-309). -/
def on_event (d : VirtualDrive) (e : CEvent) : Bool × List Action :=
  match e with
  | CEvent.Select => (true, [Action.ToggleVDriveMount d.window])
  | CEvent.OtherEvent => (false, [])

/-- Translation of input::Input::do_action for VirtualDrive (vdrive.rs
lines 311-331): toggle-mount actions for this window drive the state
machine; read-only / non-removable toggles for this volume's name flip the
corresponding persisted flag; everything else is unhandled. -/
def do_action (env : Env) (d : VirtualDrive) (a : Action) :
    List Event × VirtualDrive × Except String (Bool × List Action) :=
  match a with
  | Action.ToggleVDriveMount id =>
    if id == d.window then
      match toggle_mount env d with
      | (evs, d2, Except.error e) => (evs, d2, Except.error e)
      | (evs, d2, Except.ok _) => (evs, d2, Except.ok (true, []))
    else ([], d, Except.ok (false, []))
  | Action.ToggleDriveReadOnly nm =>
    if nm == VirtualDrive.name d then
      ([], { d with persist := { d.persist with readonly := !d.persist.readonly } },
       Except.ok (true, []))
    else ([], d, Except.ok (false, []))
  | Action.ToggleDriveNonRemovable nm =>
    if nm == VirtualDrive.name d then
      ([], { d with persist := { d.persist with removable := !d.persist.removable } },
       Except.ok (true, []))
    else ([], d, Except.ok (false, []))
  | Action.OtherAction => ([], d, Except.ok (false, []))

/-- Full teardown trace of an internal unmount: nested-image unmounts in
order, then per-partition unmount and directory removal, then loopback
detach. -/
def fullTeardownTrace (info : MountInfo) : List Event :=
  info.isos.map (fun i => Event.isoUnmountEv i.path) ++
  (info.part_mount_paths.map (fun p => [Event.run "umount" [p], Event.removeDirAll p])).flatten ++
  [Event.run "losetup" ["-d", info.loopback_path]]

/-- Concrete environment: a free loopback at /dev/loop3 whose attach
exposes partitions loop3p1 and loop3p2, where every mount driver fails for
loop3p2 and everything else succeeds; no nested-image folders. -/
def envC4 : Env where
  run := fun cmd args =>
    if cmd == "losetup" && args == ["-f"] then Except.ok "/dev/loop3\n"
    else if cmd == "losetup" then Except.ok ""
    else if args == ["/dev/loop3p2", "/mnt/DATA (partition 2)"] then Except.error "mount failed"
    else Except.ok ""
  readDirDev := Except.ok [Except.ok "loop3", Except.ok "loop3p1", Except.ok "loop3p2"]
  createDirAll := fun _ => Except.ok ()
  pathExists := fun _ => false
  readDirIso := fun _ => Except.ok []
  isoNew := fun p => Except.ok { path := p }
  isoUnmount := fun _ => Except.ok ()
  removeDirAll := fun _ => Except.ok ()
  usbLock := Except.ok ()
  exportFile := fun _ _ _ _ => Except.ok 7
  unexportFile := fun _ => Except.ok ()

/-- The volume of the spec's scenarios: name DATA, 8_000_000_000 bytes,
initially Unmounted, default persisted disposition, no system config. -/
def dataDrive : VirtualDrive where
  state := MountState.Unmounted
  volume := { name := "DATA", size := 8000000000, path := "/dev/VolGroup00/DATA" }
  window := 0
  persist := PersistVDriveState.default
  config := { system := none, renames := [] }

/-- Concrete environment whose /dev listing contains the node loop3pa: its
name has the loop3 prefix but no trailing numeric suffix, while every mount
succeeds. -/
def envC2 : Env where
  run := fun cmd args =>
    if cmd == "losetup" && args == ["-f"] then Except.ok "/dev/loop3\n"
    else Except.ok ""
  readDirDev := Except.ok [Except.ok "loop3", Except.ok "loop3pa"]
  createDirAll := fun _ => Except.ok ()
  pathExists := fun _ => false
  readDirIso := fun _ => Except.ok []
  isoNew := fun p => Except.ok { path := p }
  isoUnmount := fun _ => Except.ok ()
  removeDirAll := fun _ => Except.ok ()
  usbLock := Except.ok ()
  exportFile := fun _ _ _ _ => Except.ok 7
  unexportFile := fun _ => Except.ok ()

/-- Concrete environment whose nested-image folder of partition loop3p1
exists and contains an entry with a non-UTF8 file name, making nested-image
discovery fail. -/
def envC3 : Env where
  run := fun cmd args =>
    if cmd == "losetup" && args == ["-f"] then Except.ok "/dev/loop3\n"
    else Except.ok ""
  readDirDev := Except.ok [Except.ok "loop3", Except.ok "loop3p1"]
  createDirAll := fun _ => Except.ok ()
  pathExists := fun _ => true
  readDirIso := fun _ =>
    Except.ok [Except.ok { utf8Name := none, path := "/mnt/DATA (partition 1)/ISOS/bad" }]
  isoNew := fun p => Except.ok { path := p }
  isoUnmount := fun _ => Except.ok ()
  removeDirAll := fun _ => Except.ok ()
  usbLock := Except.ok ()
  exportFile := fun _ _ _ _ => Except.ok 7
  unexportFile := fun _ => Except.ok ()

/-- Drive sitting in the Internal state over a small MountInfo with one
nested-image handle and two partitions. -/
def internalInfo : MountInfo where
  loopback_path := "/dev/loop3"
  part_mount_paths := ["/mnt/DATA (partition 1)", "/mnt/DATA (partition 2)"]
  isos := [{ path := "/mnt/DATA (partition 1)/ISOS/a.iso" }]

/-- Drive in state Internal over internalInfo. -/
def internalDrive : VirtualDrive :=
  { dataDrive with state := MountState.Internal internalInfo }

/-- Drive in state External holding export identifier 7. -/
def externalDrive : VirtualDrive :=
  { dataDrive with state := MountState.External 7 }

/-- Drive whose persisted disposition requests an external mount on load. -/
def externalFlagDrive : VirtualDrive :=
  { dataDrive with persist := { external_mount := true, readonly := false, removable := true } }

/-- Split never yields an empty segment list, exactly as Rust's str::split
always yields at least one item. -/
theorem splitOnChar_ne_nil (c : Char) (l : List Char) : splitOnChar c l ≠ [] := by
  induction l with
  | nil => simp [splitOnChar]
  | cons x xs ih =>
    unfold splitOnChar
    cases h : splitOnChar c xs with
    | nil => simp
    | cons y ys =>
      by_cases hx : x == c <;> simp [hx]

/-- C1: from Unmounted, mount_external requests an export of the volume's
backing path with the fixed direct-attach flag and the persisted
readonly/removable flags; on endpoint success it stores the returned
identifier, moves to External and sets the disposition's external_mount
flag; on lock-acquisition failure or endpoint failure the error propagates
and the drive (hence the Unmounted state) is unchanged. -/
theorem mount_external_from_unmounted (env : Env) (d : VirtualDrive)
    (h : d.state = MountState.Unmounted) :
    (∀ id, env.usbLock = Except.ok () →
      env.exportFile d.volume.path false d.persist.readonly d.persist.removable =
        Except.ok id →
      mount_external env d =
        ([Event.exportFile d.volume.path false d.persist.readonly d.persist.removable],
         { d with state := MountState.External id,
                  persist := { d.persist with external_mount := true } },
         Except.ok ())) ∧
    (∀ e, env.usbLock = Except.error e →
      mount_external env d = ([], d, Except.error e)) ∧
    (∀ e, env.usbLock = Except.ok () →
      env.exportFile d.volume.path false d.persist.readonly d.persist.removable =
        Except.error e →
      mount_external env d =
        ([Event.exportFile d.volume.path false d.persist.readonly d.persist.removable],
         d, Except.error ("failed to mount drive external: " ++ e))) := by
  refine ⟨?_, ?_, ?_⟩
  · intro id hl he
    simp [mount_external, h, hl, he]
  · intro e hl
    simp [mount_external, h, hl]
  · intro e hl he
    simp [mount_external, h, hl, he]

/-- Witness for C1: the scenario environment exports DATA's backing path
with the default flags and identifier 7. -/
theorem mount_external_from_unmounted_witness :
    mount_external envC4 dataDrive =
      ([Event.exportFile "/dev/VolGroup00/DATA" false false true],
       { dataDrive with state := MountState.External 7,
                        persist := { dataDrive.persist with external_mount := true } },
       Except.ok ()) :=
  (mount_external_from_unmounted envC4 dataDrive rfl).1 7 rfl rfl

/-- C6: mount_internal is idempotent: in state Internal it returns the
existing MountInfo unchanged and performs no events at all. -/
theorem mount_internal_idempotent (env : Env) (d : VirtualDrive) (info : MountInfo)
    (h : d.state = MountState.Internal info) :
    mount_internal env d = ([], d, Except.ok info) := by
  simp [mount_internal, h]

/-- Witness for C6: the Internal drive over internalInfo. -/
theorem mount_internal_idempotent_witness :
    mount_internal envC4 internalDrive = ([], internalDrive, Except.ok internalInfo) :=
  mount_internal_idempotent envC4 internalDrive internalInfo rfl

/-- C7: no direct Internal-External transition: mount_external while
Internal and mount_internal while External both fail with the invalid
transition error, performing no events and leaving the drive unchanged. -/
theorem no_direct_internal_external_transition (env : Env) (d : VirtualDrive) :
    (∀ info, d.state = MountState.Internal info →
      mount_external env d =
        ([], d, Except.error "Attempt to mount_external while mounted internal")) ∧
    (∀ id, d.state = MountState.External id →
      mount_internal env d =
        ([], d, Except.error "Attempt to mount_internal while mounted external")) := by
  constructor
  · intro info h
    simp [mount_external, h]
  · intro id h
    simp [mount_internal, h]

/-- Witness for C7: the Internal and External drives. -/
theorem no_direct_internal_external_transition_witness :
    mount_external envC4 internalDrive =
      ([], internalDrive, Except.error "Attempt to mount_external while mounted internal") ∧
    mount_internal envC4 externalDrive =
      ([], externalDrive, Except.error "Attempt to mount_internal while mounted external") :=
  ⟨(no_direct_internal_external_transition envC4 internalDrive).1 internalInfo rfl,
   (no_direct_internal_external_transition envC4 externalDrive).2 7 rfl⟩

/-- C3: any failing mount_internal from Unmounted leaves the drive exactly
as it was: the error propagates and the state machine stays Unmounted with
no partial MountInfo recorded. -/
theorem mount_internal_failure_leaves_unmounted (env : Env) (d : VirtualDrive)
    (e : String) (h : d.state = MountState.Unmounted)
    (he : (mount_internal env d).2.2 = Except.error e) :
    (mount_internal env d).2.1 = d ∧
    (mount_internal env d).2.1.state = MountState.Unmounted := by
  have hd : (mount_internal env d).2.1 = d := by
    rcases hcore : mountInternalCore env d with ⟨evs, r⟩
    cases r with
    | ok info =>
      simp [mount_internal, h, hcore] at he
    | error e2 =>
      simp [mount_internal, h, hcore]
  exact ⟨hd, by rw [hd, h]⟩

/-- Witness for C3: the environment whose nested-image folder holds an
entry with a non-UTF8 name; its discovery failure aborts the whole
transition with the Invalid file name error and the drive is unchanged. -/
theorem mount_internal_failure_leaves_unmounted_witness :
    (mount_internal envC3 dataDrive).2.2 = Except.error "Invalid file name" ∧
    (mount_internal envC3 dataDrive).2.1 = dataDrive :=
  ⟨by decide,
   (mount_internal_failure_leaves_unmounted envC3 dataDrive "Invalid file name"
      rfl (by decide)).1⟩

/-- C2 counterexample: the /dev node loop3pa has no trailing numeric suffix
(its derived partition identifier is the non-numeric substring after the
last p), yet mount_internal completes successfully instead of aborting with
a hard parse error. -/
theorem partnum_parse_failure_not_fatal :
    specTrailingNumericSuffix "loop3pa" = none ∧
    partNumOf "loop3pa" = Except.ok "a" ∧
    (mount_internal envC2 dataDrive).2.2 =
      Except.ok { loopback_path := "/dev/loop3",
                  part_mount_paths := ["/mnt/DATA (partition a)"], isos := [] } := by
  refine ⟨by decide, by decide, by decide⟩

/-- C2 as amended: the partition identifier is the substring after the last
p of the node's name; the derivation never fails (the hard-error branch of
the source is unreachable, as Rust's split always yields a last segment)
and the identifier is not validated to be numeric. -/
theorem partnum_derivation_total (s : String) :
    ∃ t, partNumOf s = Except.ok t ∧
      t = String.mk ((splitOnChar 'p' s.data).getLast (splitOnChar_ne_nil 'p' s.data)) := by
  unfold partNumOf
  rw [List.getLast?_eq_getLast _ (splitOnChar_ne_nil 'p' s.data)]
  exact ⟨_, rfl, rfl⟩

/-- C4: a partition whose mount attempt fails for every driver in the fixed
ordered list yields the mount failure error from mount_partition, and in
the loop3p1/loop3p2 scenario where only loop3p2 fails, the recorded
part_mount_paths are exactly the loop3p1 mount point. -/
theorem failing_partition_skipped (env : Env) (dev tgt : String)
    (e1 e2 e3 : String)
    (h1 : env.run "mount" [dev, tgt] = Except.error e1)
    (h2 : env.run "mount.exfat" [dev, tgt] = Except.error e2)
    (h3 : env.run "mount.ntfs-3g" [dev, tgt] = Except.error e3) :
    (mount_partition env dev tgt).2 =
      Except.error ("Failed to mount: " ++ dev ++ " to " ++ tgt) ∧
    (mount_internal envC4 dataDrive).2.2 =
      Except.ok { loopback_path := "/dev/loop3",
                  part_mount_paths := ["/mnt/DATA (partition 1)"], isos := [] } := by
  constructor
  · simp [mount_partition, tryMounters, h1, h2, h3, M.err]
  · decide

/-- Witness for C4: in the scenario environment every driver fails for
loop3p2, so its mount_partition errors while the transition still records
exactly the loop3p1 mount point. -/
theorem failing_partition_skipped_witness :
    (mount_partition envC4 "/dev/loop3p2" "/mnt/DATA (partition 2)").2 =
      Except.error "Failed to mount: /dev/loop3p2 to /mnt/DATA (partition 2)" ∧
    (mount_internal envC4 dataDrive).2.2 =
      Except.ok { loopback_path := "/dev/loop3",
                  part_mount_paths := ["/mnt/DATA (partition 1)"], isos := [] } :=
  failing_partition_skipped envC4 "/dev/loop3p2" "/mnt/DATA (partition 2)"
    "mount failed" "mount failed" "mount failed" (by decide) (by decide) (by decide)

/-- Nested-image teardown trace: always a prefix of the per-handle unmount
list, and the whole list on success. -/
theorem unmountIsos_trace (env : Env) (isos : List Iso) :
    (∃ rest, (unmountIsos env isos).1 ++ rest =
      isos.map (fun i => Event.isoUnmountEv i.path)) ∧
    ((unmountIsos env isos).2 = Except.ok () →
      (unmountIsos env isos).1 = isos.map (fun i => Event.isoUnmountEv i.path)) := by
  induction isos with
  | nil => simp [unmountIsos]
  | cons i rest ih =>
    cases h : env.isoUnmount i with
    | error e =>
      refine ⟨⟨rest.map (fun i => Event.isoUnmountEv i.path), by simp [unmountIsos, h]⟩, ?_⟩
      intro hok
      simp [unmountIsos, h] at hok
    | ok u =>
      rcases h2 : unmountIsos env rest with ⟨evs, r⟩
      rw [h2] at ih
      obtain ⟨⟨tail, htail⟩, hok⟩ := ih
      refine ⟨⟨tail, ?_⟩, ?_⟩
      · simp [unmountIsos, h, h2]
        exact htail
      · intro hr
        simp [unmountIsos, h, h2] at hr ⊢
        exact hok hr

/-- Partition teardown trace: always a prefix of the per-partition
unmount/remove pairs, and the whole list on success. -/
theorem unmountParts_trace (env : Env) (parts : List String) :
    (∃ rest, (unmountParts env parts).1 ++ rest =
      (parts.map (fun p => [Event.run "umount" [p], Event.removeDirAll p])).flatten) ∧
    ((unmountParts env parts).2 = Except.ok () →
      (unmountParts env parts).1 =
        (parts.map (fun p => [Event.run "umount" [p], Event.removeDirAll p])).flatten) := by
  induction parts with
  | nil => simp [unmountParts]
  | cons p rest ih =>
    cases h : env.run "umount" [p] with
    | error e =>
      refine ⟨⟨Event.removeDirAll p ::
        (rest.map (fun q => [Event.run "umount" [q], Event.removeDirAll q])).flatten,
        by simp [unmountParts, h]⟩, ?_⟩
      intro hok
      simp [unmountParts, h] at hok
    | ok u =>
      cases h2 : env.removeDirAll p with
      | error e =>
        refine ⟨⟨(rest.map (fun q => [Event.run "umount" [q], Event.removeDirAll q])).flatten,
          by simp [unmountParts, h, h2]⟩, ?_⟩
        intro hok
        simp [unmountParts, h, h2] at hok
      | ok v =>
        rcases h3 : unmountParts env rest with ⟨evs, r⟩
        rw [h3] at ih
        obtain ⟨⟨tail, htail⟩, hok⟩ := ih
        refine ⟨⟨tail, ?_⟩, ?_⟩
        · simp [unmountParts, h, h2, h3]
          exact htail
        · intro hr
          simp [unmountParts, h, h2, h3] at hr ⊢
          exact hok hr

/-- Core teardown trace: always a prefix of the full teardown trace, and
exactly the full teardown trace on success. -/
theorem unmountInternalCore_trace (env : Env) (info : MountInfo) :
    (∃ rest, (unmountInternalCore env info).1 ++ rest = fullTeardownTrace info) ∧
    ((unmountInternalCore env info).2 = Except.ok () →
      (unmountInternalCore env info).1 = fullTeardownTrace info) := by
  obtain ⟨⟨itail, hitail⟩, hiok⟩ := unmountIsos_trace env info.isos
  obtain ⟨⟨ptail, hptail⟩, hpok⟩ := unmountParts_trace env info.part_mount_paths
  rcases h1 : unmountIsos env info.isos with ⟨evs1, r1⟩
  rw [h1] at hitail hiok
  cases r1 with
  | error e =>
    refine ⟨⟨itail ++
      (info.part_mount_paths.map
        (fun p => [Event.run "umount" [p], Event.removeDirAll p])).flatten ++
      [Event.run "losetup" ["-d", info.loopback_path]], ?_⟩, ?_⟩
    · simp only [unmountInternalCore, h1, fullTeardownTrace]
      rw [← List.append_assoc, ← List.append_assoc, hitail]
    · intro hok
      simp [unmountInternalCore, h1] at hok
  | ok u =>
    have hevs1 : evs1 = info.isos.map (fun i => Event.isoUnmountEv i.path) := hiok rfl
    rcases h2 : unmountParts env info.part_mount_paths with ⟨evs2, r2⟩
    rw [h2] at hptail hpok
    cases r2 with
    | error e =>
      refine ⟨⟨ptail ++ [Event.run "losetup" ["-d", info.loopback_path]], ?_⟩, ?_⟩
      · simp only [unmountInternalCore, h1, h2, fullTeardownTrace, hevs1]
        rw [List.append_assoc, ← List.append_assoc evs2, hptail, List.append_assoc]
      · intro hok
        simp [unmountInternalCore, h1, h2] at hok
    | ok v =>
      have hevs2 :
          evs2 = (info.part_mount_paths.map
            (fun p => [Event.run "umount" [p], Event.removeDirAll p])).flatten := hpok rfl
      cases h3 : env.run "losetup" ["-d", info.loopback_path] with
      | error e =>
        refine ⟨⟨[], ?_⟩, ?_⟩
        · simp [unmountInternalCore, h1, h2, h3, fullTeardownTrace, hevs1, hevs2]
        · intro hok
          simp [unmountInternalCore, h1, h2, h3] at hok
      | ok w =>
        refine ⟨⟨[], ?_⟩, fun _ => ?_⟩ <;>
          simp [unmountInternalCore, h1, h2, h3, fullTeardownTrace, hevs1, hevs2]

/-- C5: within one unmount_internal from Internal, the performed teardown
events are always an in-order prefix of: all nested-image unmounts, then
per-partition unmount and directory removal, then loopback detach; the
first failure halts further teardown with the drive unchanged, and only on
full success is the whole trace performed and the state set to Unmounted,
discarding the MountInfo. -/
theorem unmount_internal_teardown_order (env : Env) (d : VirtualDrive) (info : MountInfo)
    (h : d.state = MountState.Internal info) :
    (∃ rest, (unmount_internal env d).1 ++ rest = fullTeardownTrace info) ∧
    ((unmount_internal env d).2.2 = Except.ok () →
      (unmount_internal env d).1 = fullTeardownTrace info ∧
      (unmount_internal env d).2.1 = { d with state := MountState.Unmounted }) ∧
    (∀ e, (unmount_internal env d).2.2 = Except.error e →
      (unmount_internal env d).2.1 = d ∧
      (unmount_internal env d).2.1.state = MountState.Internal info) := by
  obtain ⟨⟨tail, htail⟩, hok⟩ := unmountInternalCore_trace env info
  rcases hcore : unmountInternalCore env info with ⟨evs, r⟩
  rw [hcore] at htail hok
  cases r with
  | error e =>
    refine ⟨⟨tail, by simpa [unmount_internal, h, hcore] using htail⟩, ?_, ?_⟩
    · intro hr
      simp [unmount_internal, h, hcore] at hr
    · intro e2 hr
      simp [unmount_internal, h, hcore]
  | ok u =>
    refine ⟨⟨tail, by simpa [unmount_internal, h, hcore] using htail⟩, ?_, ?_⟩
    · intro hr
      simp [unmount_internal, h, hcore]
      exact hok rfl
    · intro e2 hr
      simp [unmount_internal, h, hcore] at hr

/-- Witness for C5: full teardown of the Internal drive over internalInfo
in the all-success environment. -/
theorem unmount_internal_teardown_order_witness :
    (unmount_internal envC4 internalDrive).1 = fullTeardownTrace internalInfo ∧
    (unmount_internal envC4 internalDrive).2.1 =
      { internalDrive with state := MountState.Unmounted } :=
  (unmount_internal_teardown_order envC4 internalDrive internalInfo rfl).2.1 (by decide)

/-- C8: on load, a persisted external disposition leads straight to
mount_external (on_load is literally that call, so mount_internal is never
performed); otherwise mount_internal runs and, when the auto_fstrim
configuration flag is enabled, one detached trim task is spawned per
mounted partition path after the mount's own events, the load succeeding
regardless of any trim outcome; a failed internal mount propagates
unchanged. -/
theorem on_load_dispatch (env : Env) (d : VirtualDrive) :
    (d.persist.external_mount = true → on_load env d = mount_external env d) ∧
    (d.persist.external_mount = false →
      (∀ evs d2 info, mount_internal env d = (evs, d2, Except.ok info) →
        on_load env d =
          (evs ++ (if autoFstrim d.config then trimEvents d2.state else []),
           d2, Except.ok ())) ∧
      (∀ evs d2 e, mount_internal env d = (evs, d2, Except.error e) →
        on_load env d = (evs, d2, Except.error e))) := by
  constructor
  · intro h
    simp [on_load, h]
  · intro h
    constructor
    · intro evs d2 info hm
      by_cases hf : autoFstrim d.config <;> simp [on_load, h, hm, hf]
    · intro evs d2 e hm
      simp [on_load, h, hm]

/-- Witness for C8: with the external flag persisted, load is exactly the
external mount in the scenario environment. -/
theorem on_load_dispatch_witness :
    on_load envC4 externalFlagDrive = mount_external envC4 externalFlagDrive :=
  (on_load_dispatch envC4 externalFlagDrive).1 rfl

/-- C9: the DATA volume of 8_000_000_000 bytes toggled from Unmounted ends
External with export identifier 7, and its render shows the label DATA
(7.5GB) with the external marker glyph. -/
theorem toggle_then_render_scenario :
    dataDrive.volume.name = "DATA" ∧
    dataDrive.volume.size = 8000000000 ∧
    dataDrive.state = MountState.Unmounted ∧
    (toggle_mount envC4 dataDrive).2.2 = Except.ok () ∧
    (toggle_mount envC4 dataDrive).2.1.state = MountState.External 7 ∧
    render (toggle_mount envC4 dataDrive).2.1 false =
      { label := "DATA (7.5GB)", externalMarker := true, focusArrow := false } := by
  refine ⟨rfl, rfl, rfl, by decide, by decide, by decide⟩

/-- C10: a toggle read-only or toggle non-removable action carrying this
volume's name flips exactly the corresponding persisted boolean: no event
is performed, the mount state (in particular an active External export and
its identifier) is untouched, and the other persisted fields are
unchanged. -/
theorem toggle_flag_actions_frame (env : Env) (d : VirtualDrive) (nm : String)
    (h : nm = VirtualDrive.name d) :
    do_action env d (Action.ToggleDriveReadOnly nm) =
      ([], { d with persist := { d.persist with readonly := !d.persist.readonly } },
       Except.ok (true, [])) ∧
    do_action env d (Action.ToggleDriveNonRemovable nm) =
      ([], { d with persist := { d.persist with removable := !d.persist.removable } },
       Except.ok (true, [])) ∧
    (do_action env d (Action.ToggleDriveReadOnly nm)).2.1.state = d.state ∧
    (do_action env d (Action.ToggleDriveNonRemovable nm)).2.1.state = d.state := by
  refine ⟨?_, ?_, ?_, ?_⟩ <;> simp [do_action, h]

/-- Witness for C10: toggling read-only on the drive holding export 7
leaves the External state and its identifier in place and flips only the
readonly flag. -/
theorem toggle_flag_actions_frame_witness :
    do_action envC4 externalDrive (Action.ToggleDriveReadOnly "DATA") =
      ([], { externalDrive with
              persist := { externalDrive.persist with readonly := true } },
       Except.ok (true, [])) ∧
    (do_action envC4 externalDrive (Action.ToggleDriveReadOnly "DATA")).2.1.state =
      MountState.External 7 :=
  ⟨(toggle_flag_actions_frame envC4 externalDrive "DATA" rfl).1,
   (toggle_flag_actions_frame envC4 externalDrive "DATA" rfl).2.2.1⟩
